import Mathlib

/-!
Verification of the ZenMind journaling PWA core: the IndexedDB-backed
local store (src/services/db.ts), the habit operations of the UI layer
(src/App.tsx), and the service-worker offline cache proxy.
-/

namespace ZenMind

/-- Note record shape, from src/types.ts. -/
structure Note where
  id : String
  title : String
  content : String
  createdAt : Nat
  synced : Bool
deriving DecidableEq, Repr

/-- Habit record shape, from src/types.ts. -/
structure Habit where
  id : String
  name : String
  completedDays : List String
  streak : Nat
deriving DecidableEq, Repr

/-- A record held in the embedded database. IndexedDB object stores are
schemaless, so either record shape can be handed to the generic
`put`/`delete`/`getAll` layer of db.ts. -/
inductive Rec
  | note (n : Note)
  | habit (h : Habit)
deriving DecidableEq, Repr

/-- The key extracted by the object stores' shared key path `id`
(db.ts, `createObjectStore(..., { keyPath: 'id' })`). -/
def Rec.key : Rec → String
  | .note n => n.id
  | .habit h => h.id

/-- The two object stores created in `init`'s `onupgradeneeded`. -/
inductive Collection
  | notes
  | habits
deriving DecidableEq, Repr

/-- Contents of the embedded database: a record sequence per object store. -/
abbrev Store := Collection → List Rec

def emptyStore : Store := fun _ => []

/-- Replace one object store's contents, leaving the other untouched
(each db.ts transaction is scoped to a single store). -/
def setCol (st : Store) (c : Collection) (l : List Rec) : Store :=
  fun c' => if c' = c then l else st c'

/-- `IDBObjectStore.put`: insert-or-replace keyed by the `id` key path. -/
def putRec (l : List Rec) (r : Rec) : List Rec :=
  l.filter (fun x => x.key != r.key) ++ [r]

/-- `IDBObjectStore.delete`: remove the record stored at the given key;
succeeds whether or not such a record exists. -/
def deleteRec (l : List Rec) (id : String) : List Rec :=
  l.filter (fun x => x.key != id)

/-- Failure modes of the store layer. `notInitialized` models the
`this.db!` non-null assertion being reached with no open handle. -/
inductive DBError
  | storageUnavailable
  | writeError
  | notInitialized
deriving DecidableEq, Repr

/-- State of the `LocalDatabase` class (db.ts): the persistent engine
contents (`none` until the named database has ever been created) and
whether `this.db` currently holds an open handle. -/
structure LocalDatabase where
  backend : Option Store
  db : Bool

/-- `LocalDatabase.init`: opens `ZenMindDB` version 1. `onupgradeneeded`
fires only when the database does not exist yet and creates the empty
`notes` and `habits` stores; `onsuccess` assigns the opened handle to
`this.db`. `engineOk = false` models the engine-level `onerror` path. -/
def LocalDatabase.init (engineOk : Bool) (s : LocalDatabase) :
    Except DBError LocalDatabase :=
  if engineOk then
    .ok { backend := some (s.backend.getD emptyStore), db := true }
  else .error .storageUnavailable

/-- The `if (!this.db) await this.init();` prelude shared by every
operation of db.ts. -/
def LocalDatabase.ensure (engineOk : Bool) (s : LocalDatabase) :
    Except DBError LocalDatabase :=
  if s.db then .ok s else s.init engineOk

/-- `LocalDatabase.getAll` (db.ts): lazily initialize, then read every
record of one store in a readonly transaction via `store.getAll()`. -/
def LocalDatabase.getAll (engineOk : Bool) (s : LocalDatabase)
    (c : Collection) : Except DBError (LocalDatabase × List Rec) := do
  let t ← s.ensure engineOk
  match t.db, t.backend with
  | true, some st => .ok (t, st c)
  | _, _ => .error .notInitialized

/-- `LocalDatabase.put` (db.ts): lazily initialize, then insert-or-replace
`r` in store `c` under its `id` key in a readwrite transaction. -/
def LocalDatabase.put (engineOk : Bool) (s : LocalDatabase)
    (c : Collection) (r : Rec) : Except DBError LocalDatabase := do
  let t ← s.ensure engineOk
  match t.db, t.backend with
  | true, some st =>
      .ok { backend := some (setCol st c (putRec (st c) r)), db := true }
  | _, _ => .error .notInitialized

/-- `LocalDatabase.delete` (db.ts): lazily initialize, then remove the
record keyed `id` from store `c` in a readwrite transaction. -/
def LocalDatabase.delete (engineOk : Bool) (s : LocalDatabase)
    (c : Collection) (id : String) : Except DBError LocalDatabase := do
  let t ← s.ensure engineOk
  match t.db, t.backend with
  | true, some st =>
      .ok { backend := some (setCol st c (deleteRec (st c) id)), db := true }
  | _, _ => .error .notInitialized

/-- A well-formed store state: an open handle only exists over a created
database. Every state reachable from a fresh or persisted start satisfies
this. -/
def WF (s : LocalDatabase) : Prop := s.db = true → s.backend.isSome

/-- The per-habit body of `handleToggleHabit` (src/App.tsx): when the id
matches, remove `today` from `completedDays` if present, append it
otherwise, and recompute `streak` as the new length; other habits are
returned unchanged. -/
def toggleOne (today habitId : String) (h : Habit) : Habit :=
  if h.id == habitId then
    let completed := h.completedDays.contains today
    let nextDays :=
      if completed then h.completedDays.filter (fun d => d != today)
      else h.completedDays ++ [today]
    { h with completedDays := nextDays, streak := nextDays.length }
  else h

/-- `handleToggleHabit`'s `habits.map` over the habit list. -/
def toggleHabits (today habitId : String) (hs : List Habit) : List Habit :=
  hs.map (toggleOne today habitId)

/-- The habit built by `createHabit` (src/App.tsx): empty
`completedDays` and `streak = 0`. -/
def mkHabit (id name : String) : Habit :=
  { id := id, name := name, completedDays := [], streak := 0 }

/-- An HTTP request as seen by the service worker's fetch handler. -/
structure Request where
  url : String
  method : String
  mode : String
deriving DecidableEq, Repr

/-- An HTTP response; `status` is kept so that success can be spoken of. -/
structure Response where
  status : Nat
  body : String
deriving DecidableEq, Repr

/-- `Response.ok` of the fetch API: the status lies in 200..299. -/
def respOk (r : Response) : Bool := 200 ≤ r.status && r.status < 300

/-- JS `String.prototype.includes`: substring containment. -/
def strIncludes (s pat : String) : Bool :=
  decide (List.IsInfix pat.toList s.toList)

/-- The versioned asset cache `zenmind-v1`: URL-keyed responses. -/
abbrev Cache := List (String × Response)

/-- `caches.match` applied to a URL string (the Cache API keys entries by
URL; only GET entries are ever stored). -/
def cacheMatchUrl (cache : Cache) (url : String) : Option Response :=
  (cache.find? (fun e => e.fst == url)).map Prod.snd

/-- `caches.match(request)`: a request can only match a cache entry when
its method is GET (Cache API matching semantics). -/
def cacheMatch (cache : Cache) (req : Request) : Option Response :=
  if req.method == "GET" then cacheMatchUrl cache req.url else none

/-- `cache.put(request, response)`: store the response keyed by the
request URL, replacing any previous entry for that URL. -/
def cachePut (cache : Cache) (url : String) (r : Response) : Cache :=
  (url, r) :: cache.filter (fun e => e.fst != url)

/-- Outcome of the fetch handler for one request. `passthrough` is the
early return before `respondWith` (the browser goes to the network on
its own); `respondUndefined` is `respondWith` resolving with no
Response, which surfaces as a failed fetch to the caller. -/
inductive FetchResult
  | passthrough
  | respond (r : Response)
  | respondUndefined
deriving DecidableEq, Repr

/-- Host of the remote insight-generation endpoint, tested with
`url.includes(...)` in the fetch handler. -/
def apiHost : String := "generativelanguage.googleapis.com"

/-- The service worker's `fetch` handler: API requests pass through
untouched; otherwise cache-first, on a miss fetch from the network and
best-effort cache GET responses not originating from a browser
extension; when both cache and network fail, fall back to the cached
shell for navigations and to no response otherwise. `net req = none`
models the network fetch rejecting. -/
def handleFetch (cache : Cache) (net : Request → Option Response)
    (req : Request) : FetchResult × Cache :=
  if strIncludes req.url apiHost then
    (.passthrough, cache)
  else
    match cacheMatch cache req with
    | some r => (.respond r, cache)
    | none =>
      match net req with
      | some fr =>
        if req.method == "GET" && !(strIncludes req.url "chrome-extension") then
          (.respond fr, cachePut cache req.url fr)
        else (.respond fr, cache)
      | none =>
        if req.mode == "navigate" then
          match cacheMatchUrl cache "/index.html" with
          | some shell => (.respond shell, cache)
          | none => (.respondUndefined, cache)
        else (.respondUndefined, cache)

theorem ensure_wf (s : LocalDatabase) (h : WF s) :
    s.ensure true = .ok ⟨some (s.backend.getD emptyStore), true⟩ := by
  cases s with
  | mk backend db =>
    cases db with
    | false => simp [LocalDatabase.ensure, LocalDatabase.init]
    | true =>
      obtain ⟨st, hb⟩ := Option.isSome_iff_exists.mp (h rfl)
      subst hb
      simp [LocalDatabase.ensure]

/-- Claim C1: for every record `r` and collection `c`, `put(c, r)`
followed immediately by `listAll(c)` yields a sequence containing that
exact record `r`. -/
theorem put_listAll_roundtrip (s : LocalDatabase) (c : Collection) (r : Rec)
    (h : WF s) :
    ∃ s₁, LocalDatabase.put true s c r = .ok s₁ ∧
      ∃ s₂ l, LocalDatabase.getAll true s₁ c = .ok (s₂, l) ∧ r ∈ l := by
  have he := ensure_wf s h
  refine ⟨⟨some (setCol (s.backend.getD emptyStore) c
      (putRec (s.backend.getD emptyStore c) r)), true⟩, ?_, ?_⟩
  · unfold LocalDatabase.put
    rw [he]
    rfl
  · refine ⟨_, _, rfl, ?_⟩
    simp [LocalDatabase.getAll, LocalDatabase.ensure, setCol, putRec]

/-- Witness for C1, instantiating the round-trip at the spec's own
scenario: a fresh store, `put("notes", {id := "a", ...})`, `listAll`. -/
theorem put_listAll_roundtrip_witness :
    ∃ s₁, LocalDatabase.put true ⟨none, false⟩ .notes
        (.note ⟨"a", "T", "C", 1000, true⟩) = .ok s₁ ∧
      ∃ s₂ l, LocalDatabase.getAll true s₁ .notes = .ok (s₂, l) ∧
        Rec.note ⟨"a", "T", "C", 1000, true⟩ ∈ l :=
  put_listAll_roundtrip ⟨none, false⟩ .notes (.note ⟨"a", "T", "C", 1000, true⟩)
    (fun hd => nomatch hd)

/-- Claim C2: after `delete(c, id)`, `listAll(c)` contains no record
keyed `id`; the delete succeeds for every starting state, in particular
when no record with that key exists, and in that case the surviving
records are exactly the old ones. -/
theorem delete_listAll_excludes (s : LocalDatabase) (c : Collection)
    (id : String) (h : WF s) :
    ∃ s₁, LocalDatabase.delete true s c id = .ok s₁ ∧
      ∃ s₂ l, LocalDatabase.getAll true s₁ c = .ok (s₂, l) ∧
        (∀ r ∈ l, Rec.key r ≠ id) ∧
        (∀ r, r ∈ l ↔ r ∈ s.backend.getD emptyStore c ∧ Rec.key r ≠ id) := by
  have he := ensure_wf s h
  refine ⟨⟨some (setCol (s.backend.getD emptyStore) c
      (deleteRec (s.backend.getD emptyStore c) id)), true⟩, ?_, ?_⟩
  · unfold LocalDatabase.delete
    rw [he]
    rfl
  · refine ⟨_, _, rfl, ?_, ?_⟩
    · intro r hr
      simp [LocalDatabase.getAll, LocalDatabase.ensure, setCol, deleteRec] at hr
      exact hr.2
    · intro r
      simp [LocalDatabase.getAll, LocalDatabase.ensure, setCol, deleteRec]

/-- Witness for C2: deleting the key "zz" from a fresh (empty) store
succeeds and the store afterwards holds no record keyed "zz". -/
theorem delete_listAll_excludes_witness :
    ∃ s₁, LocalDatabase.delete true ⟨none, false⟩ .habits "zz" = .ok s₁ ∧
      ∃ s₂ l, LocalDatabase.getAll true s₁ .habits = .ok (s₂, l) ∧
        (∀ r ∈ l, Rec.key r ≠ "zz") ∧
        (∀ r, r ∈ l ↔
          r ∈ (none : Option Store).getD emptyStore .habits ∧ Rec.key r ≠ "zz") :=
  delete_listAll_excludes ⟨none, false⟩ .habits "zz" (fun hd => nomatch hd)

/-- Claim C8: `init` is idempotent: when the handle is already open over
a created database, another `init` leaves the state (handle and stored
records) unchanged, and chaining two `init` calls equals one. -/
theorem init_idempotent (s : LocalDatabase) (st : Store)
    (hb : s.backend = some st) (hd : s.db = true) :
    s.init true = .ok s ∧
      ((s.init true).bind fun t => t.init true) = .ok s := by
  cases s with
  | mk backend db =>
    cases hb
    cases hd
    exact ⟨rfl, rfl⟩

/-- Witness for C8 at a concrete open state over an empty database. -/
theorem init_idempotent_witness :
    LocalDatabase.init true ⟨some emptyStore, true⟩ = .ok ⟨some emptyStore, true⟩ ∧
      ((LocalDatabase.init true ⟨some emptyStore, true⟩).bind
        fun t => t.init true) = .ok ⟨some emptyStore, true⟩ :=
  init_idempotent ⟨some emptyStore, true⟩ emptyStore rfl rfl

/-- Claim C9: when initialization succeeds (`engineOk = true`), every
public operation first ensures the database is open, so `getAll`, `put`
and `delete` all return successfully from any well-formed state — the
`notInitialized` branch (dereferencing an absent handle) is never
taken. -/
theorem ops_auto_init (s : LocalDatabase) (c : Collection) (r : Rec)
    (id : String) (h : WF s) :
    (∃ x, LocalDatabase.getAll true s c = .ok x) ∧
      (∃ x, LocalDatabase.put true s c r = .ok x) ∧
      (∃ x, LocalDatabase.delete true s c id = .ok x) ∧
      LocalDatabase.getAll true s c ≠ .error .notInitialized ∧
      LocalDatabase.put true s c r ≠ .error .notInitialized ∧
      LocalDatabase.delete true s c id ≠ .error .notInitialized := by
  have he := ensure_wf s h
  have hg : LocalDatabase.getAll true s c =
      .ok (⟨some (s.backend.getD emptyStore), true⟩, s.backend.getD emptyStore c) := by
    unfold LocalDatabase.getAll
    rw [he]
    rfl
  have hp : LocalDatabase.put true s c r =
      .ok ⟨some (setCol (s.backend.getD emptyStore) c
        (putRec (s.backend.getD emptyStore c) r)), true⟩ := by
    unfold LocalDatabase.put
    rw [he]
    rfl
  have hd : LocalDatabase.delete true s c id =
      .ok ⟨some (setCol (s.backend.getD emptyStore) c
        (deleteRec (s.backend.getD emptyStore c) id)), true⟩ := by
    unfold LocalDatabase.delete
    rw [he]
    rfl
  refine ⟨⟨_, hg⟩, ⟨_, hp⟩, ⟨_, hd⟩, ?_, ?_, ?_⟩ <;> simp [hg, hp, hd]

/-- Witness for C9 on a fresh store with a note record and a key. -/
theorem ops_auto_init_witness :
    (∃ x, LocalDatabase.getAll true ⟨none, false⟩ .notes = .ok x) ∧
      (∃ x, LocalDatabase.put true ⟨none, false⟩ .notes
        (.note ⟨"n1", "t", "c", 5, false⟩) = .ok x) ∧
      (∃ x, LocalDatabase.delete true ⟨none, false⟩ .notes "n1" = .ok x) ∧
      LocalDatabase.getAll true ⟨none, false⟩ .notes ≠ .error .notInitialized ∧
      LocalDatabase.put true ⟨none, false⟩ .notes
        (.note ⟨"n1", "t", "c", 5, false⟩) ≠ .error .notInitialized ∧
      LocalDatabase.delete true ⟨none, false⟩ .notes "n1" ≠ .error .notInitialized :=
  ops_auto_init ⟨none, false⟩ .notes (.note ⟨"n1", "t", "c", 5, false⟩) "n1"
    (fun hd => nomatch hd)

/-- Claim C3 (counterexample): toggling the same day twice does not
return `completedDays` to its original state as a list — a day that was
present but not last is re-appended at the end, changing the order. -/
theorem toggle_not_involutive :
    toggleOne "2026-01-01" "h1" (toggleOne "2026-01-01" "h1"
        ⟨"h1", "run", ["2026-01-01", "2026-01-02"], 2⟩) ≠
      ⟨"h1", "run", ["2026-01-01", "2026-01-02"], 2⟩ := by decide

/-- Claim C3 (amended): toggling a habit's completion for a day twice
returns `completedDays` to its original state as a set of days: after
the double toggle a day is a member exactly when it was a member before.
Exact list equality can fail because a removed-then-re-added day moves
to the end of the list. -/
theorem toggle_twice_mem (today habitId d : String) (h : Habit) :
    (d ∈ (toggleOne today habitId (toggleOne today habitId h)).completedDays ↔
      d ∈ h.completedDays) := by
  by_cases hid : h.id == habitId
  · by_cases hc : h.completedDays.contains today
    · simp only [toggleOne, hid, if_true]
      rw [List.elem_iff] at hc
      by_cases hdt : d = today <;> simp_all [List.mem_filter]
    · simp only [toggleOne, hid, if_true]
      rw [List.elem_iff] at hc
      by_cases hdt : d = today <;> simp_all [List.mem_filter]
  · simp [toggleOne, hid]

/-- Claim C4: the habit produced by `createHabit` and every habit
produced by the completion toggle satisfy the derived-field invariant
`streak = completedDays.length` (the toggle re-establishes it even from
an arbitrary starting habit when the id matches; a non-matching habit
passes through unchanged, keeping the invariant it had). -/
theorem streak_eq_count (id name today habitId : String) (h : Habit)
    (hinv : h.streak = h.completedDays.length) :
    (mkHabit id name).streak = (mkHabit id name).completedDays.length ∧
      (toggleOne today habitId h).streak =
        (toggleOne today habitId h).completedDays.length := by
  refine ⟨rfl, ?_⟩
  by_cases hid : h.id == habitId <;> simp [toggleOne, hid, hinv]

/-- Witness for C4 at a concrete habit satisfying the invariant. -/
theorem streak_eq_count_witness :
    (mkHabit "h9" "read").streak = (mkHabit "h9" "read").completedDays.length ∧
      (toggleOne "2026-02-02" "h7" ⟨"h7", "walk", ["2026-02-01"], 1⟩).streak =
        (toggleOne "2026-02-02" "h7"
          ⟨"h7", "walk", ["2026-02-01"], 1⟩).completedDays.length :=
  streak_eq_count "h9" "read" "2026-02-02" "h7" ⟨"h7", "walk", ["2026-02-01"], 1⟩ rfl

theorem toggleOne_id (today habitId : String) (h : Habit) :
    (toggleOne today habitId h).id = h.id := by
  by_cases hid : h.id == habitId <;> simp [toggleOne, hid]

theorem toggleOne_name (today habitId : String) (h : Habit) :
    (toggleOne today habitId h).name = h.name := by
  by_cases hid : h.id == habitId <;> simp [toggleOne, hid]

theorem toggleOne_of_ne (today habitId : String) (h : Habit)
    (hne : h.id ≠ habitId) : toggleOne today habitId h = h := by
  simp [toggleOne, hne]

/-- Claim C10: toggling completion for one id is frame-preserving on the
habit list: the length is kept, every habit whose id differs is returned
entirely unchanged, and even the toggled habit keeps its `id` and
`name`. -/
theorem toggle_frame (today habitId : String) (hs : List Habit) (i : Nat)
    (hi : i < hs.length) (hi2 : i < (toggleHabits today habitId hs).length) :
    (toggleHabits today habitId hs).length = hs.length ∧
      ((hs.get ⟨i, hi⟩).id ≠ habitId →
        (toggleHabits today habitId hs).get ⟨i, hi2⟩ = hs.get ⟨i, hi⟩) ∧
      ((toggleHabits today habitId hs).get ⟨i, hi2⟩).id = (hs.get ⟨i, hi⟩).id ∧
      ((toggleHabits today habitId hs).get ⟨i, hi2⟩).name = (hs.get ⟨i, hi⟩).name := by
  have hmap : (toggleHabits today habitId hs).get ⟨i, hi2⟩ =
      toggleOne today habitId (hs.get ⟨i, hi⟩) := by
    simp [toggleHabits]
  refine ⟨by simp [toggleHabits], ?_, ?_, ?_⟩
  · intro hne
    rw [hmap, toggleOne_of_ne _ _ _ hne]
  · rw [hmap, toggleOne_id]
  · rw [hmap, toggleOne_name]

/-- Witness for C10 on a two-habit list, toggling the first habit. -/
theorem toggle_frame_witness :
    (toggleHabits "2026-03-01" "h1"
        [⟨"h1", "run", [], 0⟩, ⟨"h2", "read", [], 0⟩]).length =
      ([⟨"h1", "run", [], 0⟩, ⟨"h2", "read", [], 0⟩] : List Habit).length ∧
      ((([⟨"h1", "run", [], 0⟩, ⟨"h2", "read", [], 0⟩] : List Habit).get
          ⟨1, by decide⟩).id ≠ "h1" →
        (toggleHabits "2026-03-01" "h1"
            [⟨"h1", "run", [], 0⟩, ⟨"h2", "read", [], 0⟩]).get ⟨1, by decide⟩ =
          ([⟨"h1", "run", [], 0⟩, ⟨"h2", "read", [], 0⟩] : List Habit).get
            ⟨1, by decide⟩) ∧
      ((toggleHabits "2026-03-01" "h1"
          [⟨"h1", "run", [], 0⟩, ⟨"h2", "read", [], 0⟩]).get ⟨1, by decide⟩).id =
        (([⟨"h1", "run", [], 0⟩, ⟨"h2", "read", [], 0⟩] : List Habit).get
          ⟨1, by decide⟩).id ∧
      ((toggleHabits "2026-03-01" "h1"
          [⟨"h1", "run", [], 0⟩, ⟨"h2", "read", [], 0⟩]).get ⟨1, by decide⟩).name =
        (([⟨"h1", "run", [], 0⟩, ⟨"h2", "read", [], 0⟩] : List Habit).get
          ⟨1, by decide⟩).name :=
  toggle_frame "2026-03-01" "h1" [⟨"h1", "run", [], 0⟩, ⟨"h2", "read", [], 0⟩]
    1 (by decide) (by decide)

/-- Claim C7: a request whose URL targets the insight-generation
endpoint is never intercepted: the handler returns before `respondWith`,
so it is neither answered from the asset cache nor written to it,
whatever the cache and network states are. -/
theorem api_passthrough (cache : Cache) (net : Request → Option Response)
    (req : Request) (h : strIncludes req.url apiHost = true) :
    handleFetch cache net req = (.passthrough, cache) := by
  simp [handleFetch, h]

/-- Witness for C7 at a concrete Gemini API request against a populated
cache and a live network. -/
theorem api_passthrough_witness :
    handleFetch [("/index.html", ⟨200, "shell"⟩)] (fun _ => some ⟨200, "api"⟩)
        ⟨"https://generativelanguage.googleapis.com/v1beta/models", "POST", "cors"⟩ =
      (.passthrough, [("/index.html", ⟨200, "shell"⟩)]) :=
  api_passthrough [("/index.html", ⟨200, "shell"⟩)] (fun _ => some ⟨200, "api"⟩)
    ⟨"https://generativelanguage.googleapis.com/v1beta/models", "POST", "cors"⟩
    (by decide)

/-- Claim C5: when the cache misses and the network fetch fails, a
navigation request is answered with the cached application shell
(`/index.html`), while any other request gets no substituted response —
`respondWith` resolves with nothing and the fetch fails at the caller. -/
theorem offline_fallback (cache : Cache) (net : Request → Option Response)
    (req : Request) (hapi : strIncludes req.url apiHost = false)
    (hmiss : cacheMatch cache req = none) (hnet : net req = none) :
    (∀ shell, req.mode = "navigate" →
        cacheMatchUrl cache "/index.html" = some shell →
        handleFetch cache net req = (.respond shell, cache)) ∧
      (req.mode ≠ "navigate" →
        handleFetch cache net req = (.respondUndefined, cache)) := by
  constructor
  · intro shell hmode hshell
    simp [handleFetch, hapi, hmiss, hnet, hmode, hshell]
  · intro hmode
    simp [handleFetch, hapi, hmiss, hnet, hmode]

/-- Witness for C5: an offline navigation with the shell cached is
answered with the cached shell. -/
theorem offline_fallback_witness :
    handleFetch [("/index.html", ⟨200, "shell"⟩)] (fun _ => none)
        ⟨"https://app.example/page", "GET", "navigate"⟩ =
      (.respond ⟨200, "shell"⟩, [("/index.html", ⟨200, "shell"⟩)]) :=
  (offline_fallback [("/index.html", ⟨200, "shell"⟩)] (fun _ => none)
      ⟨"https://app.example/page", "GET", "navigate"⟩
      (by decide) (by decide) rfl).1 ⟨200, "shell"⟩ rfl (by decide)

/-- Claim C6 (counterexample): the handler stores network responses
without consulting their status: a GET answered with a 404 — not a
successful response — is written into the cache. -/
theorem cache_population_not_only_successful :
    ((handleFetch [] (fun _ => some ⟨404, "missing"⟩)
        ⟨"https://example.com/app.js", "GET", "no-cors"⟩).2 =
      [("https://example.com/app.js", ⟨404, "missing"⟩)]) ∧
      respOk ⟨404, "missing"⟩ = false := by decide

/-- Claim C6 (amended): on a cache miss with a completed network fetch,
a copy of the response is stored exactly when the request method is GET
and its URL does not contain "chrome-extension" — the response's status
is not consulted, so unsuccessful responses are stored too; the response
itself is returned to the caller in every case, and for non-GET or
extension-origin requests the cache is left unchanged. -/
theorem cache_population (cache : Cache) (net : Request → Option Response)
    (req : Request) (fr : Response)
    (hapi : strIncludes req.url apiHost = false)
    (hmiss : cacheMatch cache req = none) (hnet : net req = some fr) :
    handleFetch cache net req =
      (.respond fr,
        if req.method == "GET" && !(strIncludes req.url "chrome-extension")
        then cachePut cache req.url fr else cache) ∧
      (req.method = "GET" → strIncludes req.url "chrome-extension" = false →
        cacheMatchUrl (handleFetch cache net req).2 req.url = some fr) ∧
      (req.method ≠ "GET" → (handleFetch cache net req).2 = cache) := by
  refine ⟨?_, ?_, ?_⟩
  · simp only [handleFetch, hapi, hmiss, hnet]
    by_cases hc : req.method = "GET" ∧ strIncludes req.url "chrome-extension" = false <;>
      simp [hc]
  · intro hget hext
    simp [handleFetch, hapi, hmiss, hnet, hget, hext, cachePut, cacheMatchUrl]
  · intro hget
    simp [handleFetch, hapi, hmiss, hnet, hget]

/-- Witness for C6 (amended) at a concrete GET asset request. -/
theorem cache_population_witness :
    handleFetch [] (fun _ => some ⟨200, "body"⟩)
        ⟨"https://app.example/app.js", "GET", "no-cors"⟩ =
      (.respond ⟨200, "body"⟩,
        if ("GET" : String) == "GET"
            && !(strIncludes "https://app.example/app.js" "chrome-extension")
        then cachePut [] "https://app.example/app.js" ⟨200, "body"⟩ else []) ∧
      (("GET" : String) = "GET" →
        strIncludes "https://app.example/app.js" "chrome-extension" = false →
        cacheMatchUrl (handleFetch [] (fun _ => some ⟨200, "body"⟩)
          ⟨"https://app.example/app.js", "GET", "no-cors"⟩).2
          "https://app.example/app.js" = some ⟨200, "body"⟩) ∧
      (("GET" : String) ≠ "GET" →
        (handleFetch [] (fun _ => some ⟨200, "body"⟩)
          ⟨"https://app.example/app.js", "GET", "no-cors"⟩).2 = []) :=
  cache_population [] (fun _ => some ⟨200, "body"⟩)
    ⟨"https://app.example/app.js", "GET", "no-cors"⟩ ⟨200, "body"⟩
    (by decide) (by decide) rfl

end ZenMind
